import Mathlib

/-!
Verification of the ArduinoIBIS VDV 300 IBIS telegram encoder.

Shallow embedding conventions:
- Arduino `String` values are byte lists (`List Nat`, each element < 256); the
  German umlaut literals in the source are UTF-8 and therefore occupy two
  bytes each (0xC3 followed by a second byte).
- The software-serial transport handle `_port` is modelled as
  `Option Bool`: `none` when `_port == nullptr`, `some ok` when a transport
  object was allocated, where `ok` records whether its initialization
  succeeded (the `(*_port) == false` check in `Begin`).
- Send operations return the byte sequence written to the sink together with
  the (unchanged) port state; an empty list means no write happened.
- Machine integers are `Nat` with explicit `% 256` (uint8_t) or `% 65536`
  (uint16_t) at conversion boundaries.
-/

/-- The VDV 300 hex alphabet `0123456789:;<=>?` (ASCII 0x30..0x3F),
from the `hexCharacters` string in `ToHexString`. -/
def hexCharacters : List Nat :=
  [0x30, 0x31, 0x32, 0x33, 0x34, 0x35, 0x36, 0x37,
   0x38, 0x39, 0x3A, 0x3B, 0x3C, 0x3D, 0x3E, 0x3F]

/-- `ArduinoIBIS::Port::ToHexString(uint8_t value)`: high nibble character is
emitted only when nonzero, then the low nibble character. -/
def ToHexString (value : Nat) : List Nat :=
  let v := value % 256
  let highNibble := v / 16
  let lowNibble := v % 16
  (if highNibble > 0 then [hexCharacters.getD highNibble 0] else []) ++
    [hexCharacters.getD lowNibble 0]

/-- Decimal digit production, structurally recursive on a fuel argument so
that it evaluates in the kernel; `fuel` bounds the number of digits. -/
def decDigitsFuel : Nat → Nat → List Nat
  | 0, _ => []
  | _ + 1, 0 => []
  | fuel + 1, n => decDigitsFuel fuel (n / 10) ++ [0x30 + n % 10]

/-- Decimal digits of a natural number (most significant first), empty for 0.
Models the digit production of `sprintf` `%d`. -/
def decDigits (n : Nat) : List Nat :=
  decDigitsFuel n n

/-- `sprintf` `%0<width>d`: decimal rendering of `n` left-padded with ASCII
zeros to at least `width` characters. -/
def sprintfDecPad (width n : Nat) : List Nat :=
  let d := if n = 0 then [0x30] else decDigits n
  List.replicate (width - d.length) 0x30 ++ d

/-- Arduino `String::replace(find, rep)` specialised to a two-byte pattern
`[p1, p2]` and a one-byte replacement `r`: scan left to right, replace every
non-overlapping occurrence, continue after each replacement. -/
def replace2 (p1 p2 r : Nat) : List Nat → List Nat
  | [] => []
  | [a] => [a]
  | a :: b :: rest =>
    if a = p1 ∧ b = p2 then r :: replace2 p1 p2 r rest
    else a :: replace2 p1 p2 r (b :: rest)

/-- The seven `telegram.replace(...)` calls of `SendTelegram`, in source
order: ä→{, ö→|, ü→}, ß→~, Ä→[, Ö→backslash, Ü→]. Each umlaut is the UTF-8
pair 0xC3,second-byte; each replacement is a single ASCII byte. -/
def umlautRemap (t : List Nat) : List Nat :=
  replace2 0xC3 0x9C 0x5D
    (replace2 0xC3 0x96 0x5C
      (replace2 0xC3 0x84 0x5B
        (replace2 0xC3 0x9F 0x7E
          (replace2 0xC3 0xBC 0x7D
            (replace2 0xC3 0xB6 0x7C
              (replace2 0xC3 0xA4 0x7B t))))))

/-- The checksum loop of `SendTelegram`: accumulator starts at 0x7F and is
XOR-ed left to right with every byte of the telegram so far. -/
def checksum (t : List Nat) : Nat :=
  t.foldl (fun a b => a ^^^ b) 0x7F

/-- Port state: `port = none` models `_port == nullptr` (Closed);
`port = some ok` models an allocated transport whose initialization
succeeded iff `ok`. -/
structure PortState where
  port : Option Bool
deriving DecidableEq

/-- `ArduinoIBIS::Port::Begin`: rejected if a transport already exists;
otherwise a transport is allocated (`initOk` is whether `_port->begin`
succeeded, i.e. the negation of `(*_port) == false`), and the result reports
success. Note the source assigns `_port` before the initialization check and
never resets it on failure. -/
def Begin (initOk : Bool) (st : PortState) : Bool × PortState :=
  match st.port with
  | some _ => (false, st)
  | none =>
    let st2 : PortState := { port := some initOk }
    if initOk then (true, st2) else (false, st2)

/-- `ArduinoIBIS::Port::End`: releases the transport unconditionally. -/
def EndPort (_st : PortState) : PortState :=
  { port := none }

/-- `ArduinoIBIS::Port::SendTelegram`: no-op when `_port == nullptr`;
otherwise remap umlauts, append 0x0D, append the checksum byte, and write the
whole telegram to the transport. Returns the written bytes and the state. -/
def sendTelegram (st : PortState) (telegram : List Nat) : List Nat × PortState :=
  match st.port with
  | none => ([], st)
  | some _ =>
    let t1 := umlautRemap telegram
    let t2 := t1 ++ [0x0D]
    (t2 ++ [checksum t2], st)

/-- Body built by the `IBIS_SIMPLE_TELEGRAM` macro:
designator literal followed by a zero-padded decimal field. -/
def simpleTelegramBody (desig : List Nat) (width n : Nat) : List Nat :=
  desig ++ sprintfDecPad width n

/-- `DS001` (macro-generated, format `l%03d`), representative of the simple
scalar telegrams. -/
def DS001 (st : PortState) (lineNumber : Nat) : List Nat × PortState :=
  sendTelegram st (simpleTelegramBody [0x6C] 3 (lineNumber % 65536))

/-- `DS010e`: `sprintf("xV%.1s%03d", sign, delay)` — designator `xV`, at most
one character of `sign`, three-digit zero-padded delay. -/
def DS010e (st : PortState) (sign : List Nat) (delay : Nat) : List Nat × PortState :=
  sendTelegram st ([0x78, 0x56] ++ sign.take 1 ++ sprintfDecPad 3 (delay % 65536))

/-- The space-padding loop shared by DS003a, DS003c and GSP: when the length
is not a multiple of `blk`, append `blk - length % blk` spaces. -/
def padTo (blk : Nat) (l : List Nat) : List Nat :=
  l ++ (if l.length % blk > 0 then List.replicate (blk - l.length % blk) 0x20 else [])

/-- Payload portion of DS003a: the text space-padded to a multiple of 16. -/
def ds003aPayload (text : List Nat) : List Nat :=
  padTo 16 text

/-- `DS003a` body: `zA`, VDV hex block count `ceil(len/16)` (as uint8_t),
then the padded text. -/
def ds003aBody (text : List Nat) : List Nat :=
  [0x7A, 0x41] ++ ToHexString (((text.length + 15) / 16) % 256) ++ ds003aPayload text

/-- `DS003a` send operation. -/
def DS003a (st : PortState) (text : List Nat) : List Nat × PortState :=
  sendTelegram st (ds003aBody text)

/-- Payload portion of DS003c: the text space-padded to a multiple of 4. -/
def ds003cPayload (text : List Nat) : List Nat :=
  padTo 4 text

/-- `DS003c` body: `zI`, VDV hex block count `ceil(len/4)` (as uint8_t),
then the padded text. -/
def ds003cBody (text : List Nat) : List Nat :=
  [0x7A, 0x49] ++ ToHexString (((text.length + 3) / 4) % 256) ++ ds003cPayload text

/-- `DS003c` send operation. -/
def DS003c (st : PortState) (text : List Nat) : List Nat × PortState :=
  sendTelegram st (ds003cBody text)

/-- Payload portion of DS021: `text.substring(0, numBlocks * 16)` with
`numBlocks = (uint8_t)ceil(len/4)`; `substring` clamps to the text length.
No padding loop exists in the source. -/
def ds021Payload (text : List Nat) : List Nat :=
  text.take ((((text.length + 3) / 4) % 256) * 16)

/-- `DS021` body: `aA`, VDV hex address, VDV hex block count, then the
(unpadded) payload. -/
def ds021Body (address : Nat) (text : List Nat) : List Nat :=
  [0x61, 0x41] ++ ToHexString address ++ ToHexString (((text.length + 3) / 4) % 256) ++
    ds021Payload text

/-- `DS021` send operation. -/
def DS021 (st : PortState) (address : Nat) (text : List Nat) : List Nat × PortState :=
  sendTelegram st (ds021Body address text)

/-- The `sprintf("\x03%02d\x04%s\x05%s", ...)` data block of DS021a:
0x03, two-digit stop id, 0x04, stop text, 0x05, change text. -/
def ds021aData (stopId : Nat) (stopText changeText : List Nat) : List Nat :=
  [0x03] ++ sprintfDecPad 2 (stopId % 256) ++ [0x04] ++ stopText ++ [0x05] ++ changeText

/-- `DS021a` body: `aL`, VDV hex address, VDV hex block count `ceil(len/4)`,
VDV hex remainder `len % 4`, then the data block — no padding loop. -/
def ds021aBody (address stopId : Nat) (stopText changeText : List Nat) : List Nat :=
  let data := ds021aData stopId stopText changeText
  [0x61, 0x4C] ++ ToHexString address ++ ToHexString (((data.length + 3) / 4) % 256) ++
    ToHexString (data.length % 4) ++ data

/-- `DS021a` send operation. -/
def DS021a (st : PortState) (address stopId : Nat) (stopText changeText : List Nat) :
    List Nat × PortState :=
  sendTelegram st (ds021aBody address stopId stopText changeText)

/-- The `lines` string GSP builds before padding: line 1, a 0x0A separator
only when line 2 is non-empty, line 2, then the 0x0A 0x0A end marker. -/
def gspLines (line1 line2 : List Nat) : List Nat :=
  line1 ++ (if line2.length > 0 then [0x0A] else []) ++ line2 ++ [0x0A, 0x0A]

/-- Payload portion of GSP: the `lines` string space-padded to a multiple
of 16. -/
def gspPayload (line1 line2 : List Nat) : List Nat :=
  padTo 16 (gspLines line1 line2)

/-- `GSP` body: `aA`, VDV hex address, VDV hex block count `ceil(len/16)`,
then the padded lines. -/
def gspBody (address : Nat) (line1 line2 : List Nat) : List Nat :=
  [0x61, 0x41] ++ ToHexString address ++
    ToHexString ((((gspLines line1 line2).length + 15) / 16) % 256) ++
    gspPayload line1 line2

/-- `GSP` send operation. -/
def GSP (st : PortState) (address : Nat) (line1 line2 : List Nat) : List Nat × PortState :=
  sendTelegram st (gspBody address line1 line2)

/-!
Symbol-level view of telegram bodies, used to state the umlaut-substitution
property: a body is a sequence of symbols, each either a plain 7-bit byte or
one of the seven German umlauts, identified by its UTF-8 second byte
(the first byte is always 0xC3): ä = 0xA4, ö = 0xB6, ü = 0xBC, ß = 0x9F,
Ä = 0x84, Ö = 0x96, Ü = 0x9C.
-/

/-- One source character of a telegram body: a plain byte or an umlaut with
the given UTF-8 second byte. -/
inductive TSym where
  | plain (b : Nat)
  | uml (x : Nat)
deriving DecidableEq

/-- UTF-8 byte encoding of a symbol, as the bytes sit in an Arduino
`String` literal. -/
def TSym.enc : TSym → List Nat
  | .plain b => [b]
  | .uml x => [0xC3, x]

/-- The UTF-8 second bytes of ä, ö, ü, ß, Ä, Ö, Ü. -/
def umlSeconds : List Nat := [0xA4, 0xB6, 0xBC, 0x9F, 0x84, 0x96, 0x9C]

/-- A well-formed symbol: plain bytes are 7-bit, umlauts are one of the
seven characters of the substitution table. -/
def symOk : TSym → Bool
  | .plain b => decide (b < 0x80)
  | .uml x => decide (x ∈ umlSeconds)

/-- The VDV 300 substitution table on second bytes:
ä→0x7B, ö→0x7C, ü→0x7D, ß→0x7E, Ä→0x5B, Ö→0x5C, Ü→0x5D. -/
def umlSub (x : Nat) : Nat :=
  if x = 0xA4 then 0x7B else if x = 0xB6 then 0x7C else if x = 0xBC then 0x7D
  else if x = 0x9F then 0x7E else if x = 0x84 then 0x5B else if x = 0x96 then 0x5C
  else if x = 0x9C then 0x5D else x

/-- The byte each symbol should contribute to the wire after substitution. -/
def TSym.sub : TSym → Nat
  | .plain b => b
  | .uml x => umlSub x

/-- Byte encoding of a whole symbol sequence. -/
def encodeSyms : List TSym → List Nat
  | [] => []
  | s :: rest => s.enc ++ encodeSyms rest

/-- Effect of one `replace2 0xC3 p q` pass on a single symbol: the umlaut
with second byte `p` becomes the plain replacement byte `q`. -/
def stepSym (p q : Nat) : TSym → TSym
  | .plain b => .plain b
  | .uml x => if x = p then .plain q else .uml x

theorem replace2_cons_ne (p1 p2 r a : Nat) (l : List Nat) (ha : ¬ a = p1) :
    replace2 p1 p2 r (a :: l) = a :: replace2 p1 p2 r l := by
  cases l with
  | nil => rfl
  | cons b rest => simp [replace2, ha]

theorem replace2_encodeSyms (p q : Nat) (syms : List TSym)
    (h : ∀ s ∈ syms, symOk s = true) :
    replace2 0xC3 p q (encodeSyms syms) = encodeSyms (syms.map (stepSym p q)) := by
  induction syms with
  | nil => rfl
  | cons s rest ih =>
    have hs : symOk s = true := h s (List.mem_cons_self s rest)
    have hr : ∀ t ∈ rest, symOk t = true := fun t ht => h t (List.mem_cons_of_mem s ht)
    cases s with
    | plain b =>
      have hb : b < 0x80 := by simpa [symOk] using hs
      have hb3 : ¬ b = 0xC3 := by omega
      have e1 : encodeSyms (TSym.plain b :: rest) = b :: encodeSyms rest := rfl
      rw [e1, replace2_cons_ne 0xC3 p q b (encodeSyms rest) hb3, ih hr]
      rfl
    | uml x =>
      have hx : x ∈ umlSeconds := by simpa [symOk] using hs
      have hx3 : ¬ x = 0xC3 := by
        simp [umlSeconds] at hx
        rcases hx with rfl | rfl | rfl | rfl | rfl | rfl | rfl <;> omega
      have e1 : encodeSyms (TSym.uml x :: rest) = 0xC3 :: x :: encodeSyms rest := rfl
      rw [e1]
      by_cases hxp : x = p
      · subst hxp
        simp [replace2, encodeSyms, TSym.enc, stepSym, ih hr]
      · have e2 : replace2 0xC3 p q (0xC3 :: x :: encodeSyms rest) =
            0xC3 :: replace2 0xC3 p q (x :: encodeSyms rest) := by
          simp [replace2, hxp]
        rw [e2, replace2_cons_ne 0xC3 p q x (encodeSyms rest) hx3, ih hr]
        simp [encodeSyms, TSym.enc, stepSym, hxp]

theorem symOk_map_stepSym (p q : Nat) (hq : q < 0x80) (syms : List TSym)
    (h : ∀ s ∈ syms, symOk s = true) :
    ∀ s ∈ syms.map (stepSym p q), symOk s = true := by
  intro s hsmem
  rcases List.mem_map.mp hsmem with ⟨t, ht, rfl⟩
  have hok := h t ht
  cases t with
  | plain b => simpa [stepSym, symOk] using hok
  | uml x =>
    by_cases hxp : x = p
    · simp [stepSym, hxp, symOk, hq]
    · simpa [stepSym, hxp, symOk] using hok

/-- Applying all seven substitution passes to one well-formed symbol yields
the plain byte prescribed by the table. -/
theorem stepSym_chain (s : TSym) (h : symOk s = true) :
    stepSym 0x9C 0x5D (stepSym 0x96 0x5C (stepSym 0x84 0x5B (stepSym 0x9F 0x7E
      (stepSym 0xBC 0x7D (stepSym 0xB6 0x7C (stepSym 0xA4 0x7B s)))))) =
      TSym.plain s.sub := by
  cases s with
  | plain b => rfl
  | uml x =>
    have hx : x ∈ umlSeconds := by simpa [symOk] using h
    simp [umlSeconds] at hx
    rcases hx with rfl | rfl | rfl | rfl | rfl | rfl | rfl <;> rfl

theorem encodeSyms_chain (syms : List TSym) (h : ∀ s ∈ syms, symOk s = true) :
    encodeSyms ((((((((syms.map (stepSym 0xA4 0x7B)).map (stepSym 0xB6 0x7C)).map
      (stepSym 0xBC 0x7D)).map (stepSym 0x9F 0x7E)).map (stepSym 0x84 0x5B)).map
      (stepSym 0x96 0x5C)).map (stepSym 0x9C 0x5D))) = syms.map TSym.sub := by
  induction syms with
  | nil => rfl
  | cons s rest ih =>
    have hs : symOk s = true := h s (List.mem_cons_self s rest)
    have hr : ∀ t ∈ rest, symOk t = true := fun t ht => h t (List.mem_cons_of_mem s ht)
    simp only [List.map_cons, encodeSyms]
    rw [stepSym_chain s hs, ih hr]
    rfl

/-- The seven sequential `String::replace` passes of `SendTelegram`, applied
to the encoding of a well-formed symbol sequence, substitute exactly the
table byte for every symbol. -/
theorem umlautRemap_encodeSyms (syms : List TSym)
    (h : ∀ s ∈ syms, symOk s = true) :
    umlautRemap (encodeSyms syms) = syms.map TSym.sub := by
  unfold umlautRemap
  have v0 := h
  have v1 := symOk_map_stepSym 0xA4 0x7B (by omega) syms v0
  have v2 := symOk_map_stepSym 0xB6 0x7C (by omega) _ v1
  have v3 := symOk_map_stepSym 0xBC 0x7D (by omega) _ v2
  have v4 := symOk_map_stepSym 0x9F 0x7E (by omega) _ v3
  have v5 := symOk_map_stepSym 0x84 0x5B (by omega) _ v4
  have v6 := symOk_map_stepSym 0x96 0x5C (by omega) _ v5
  rw [replace2_encodeSyms 0xA4 0x7B syms v0,
      replace2_encodeSyms 0xB6 0x7C _ v1,
      replace2_encodeSyms 0xBC 0x7D _ v2,
      replace2_encodeSyms 0x9F 0x7E _ v3,
      replace2_encodeSyms 0x84 0x5B _ v4,
      replace2_encodeSyms 0x96 0x5C _ v5,
      replace2_encodeSyms 0x9C 0x5D _ v6]
  exact encodeSyms_chain syms h

theorem padTo16_length_mod (l : List Nat) : (padTo 16 l).length % 16 = 0 := by
  unfold padTo
  by_cases h : l.length % 16 > 0
  · simp only [h, if_true, List.length_append, List.length_replicate]
    omega
  · simp only [h, if_false, List.append_nil]
    omega

theorem padTo4_length_mod (l : List Nat) : (padTo 4 l).length % 4 = 0 := by
  unfold padTo
  by_cases h : l.length % 4 > 0
  · simp only [h, if_true, List.length_append, List.length_replicate]
    omega
  · simp only [h, if_false, List.append_nil]
    omega

/-- C1: For every telegram body sent while the port is open, the transmitted
frame is the umlaut-remapped body, then the 0x0D terminator, then one
checksum byte obtained by XOR-folding 0x7F left to right over the remapped
body and the terminator. Determinism of the checksum is inherent: `checksum`
is a pure function of the byte sequence, spelled out here as the fold. -/
theorem sendTelegram_frame_structure (st : PortState) (body : List Nat)
    (h : st.port = some true) :
    (sendTelegram st body).1 =
      umlautRemap body ++ [0x0D] ++
        [(umlautRemap body ++ [0x0D]).foldl (fun a b => a ^^^ b) 0x7F] := by
  obtain ⟨p⟩ := st
  have hp : p = some true := h
  subst hp
  simp [sendTelegram, checksum, List.append_assoc]

/-- Witness for C1 at the concrete body `l001` and an open port. -/
theorem sendTelegram_frame_structure_witness :
    (({ port := some true } : PortState).port = some true) ∧
    (sendTelegram { port := some true } [0x6C, 0x30, 0x30, 0x31]).1 =
      umlautRemap [0x6C, 0x30, 0x30, 0x31] ++ [0x0D] ++
        [(umlautRemap [0x6C, 0x30, 0x30, 0x31] ++ [0x0D]).foldl
          (fun a b => a ^^^ b) 0x7F] :=
  ⟨rfl, sendTelegram_frame_structure { port := some true } [0x6C, 0x30, 0x30, 0x31] rfl⟩

/-- C2 (code evaluated at the failing input): when transport initialization
fails during `Begin` on a fresh port, `Begin` does report failure, but the
port does not remain Closed: the handle stays allocated (`some false`), a
subsequent `Begin` with a working transport is rejected, and `SendTelegram`
passes the null check and writes a frame instead of being a no-op. -/
theorem begin_failed_init_not_closed :
    (Begin false { port := none }).1 = false ∧
    (Begin false { port := none }).2.port = some false ∧
    (Begin true (Begin false { port := none }).2).1 = false ∧
    (Begin true (Begin false { port := none }).2).2 = (Begin false { port := none }).2 ∧
    (sendTelegram (Begin false { port := none }).2 [0x6C, 0x30, 0x30, 0x31]).1 ≠ [] := by
  decide

/-- C3 counterexample: for DS021 with text `ABC` (3 bytes) the payload
portion after the designator and the VDV-hex digits is `ABC` itself, whose
length 3 is not a multiple of the block size 4 — the source has no padding
loop in DS021 (nor in DS021a). -/
theorem ds021_payload_not_padded_cex :
    ¬ ((ds021Payload [0x41, 0x42, 0x43]).length % 4 = 0) := by
  decide

/-- C3 amended: the padding invariant holds exactly for the formatters that
contain the padding loop — DS003a (block 16), DS003c (block 4) and GSP
(block 16). DS021 transmits the text unchanged (its `substring` bound
`numBlocks * 16` covers the whole text whenever the length stays within the
uint8_t block count, i.e. up to 1020 bytes), and DS021a appends its
marker-structured data block unpadded, as witnessed by a data block whose
length is 2 mod 4. -/
theorem blockPad_multiple_amended :
    (∀ text : List Nat, (ds003aPayload text).length % 16 = 0) ∧
    (∀ text : List Nat, (ds003cPayload text).length % 4 = 0) ∧
    (∀ line1 line2 : List Nat, (gspPayload line1 line2).length % 16 = 0) ∧
    (∀ text : List Nat, text.length ≤ 1020 → ds021Payload text = text) ∧
    (ds021aData 1 [0x41] []).length % 4 = 2 := by
  refine ⟨fun text => padTo16_length_mod text, fun text => padTo4_length_mod text,
    fun line1 line2 => padTo16_length_mod (gspLines line1 line2), ?_, by decide⟩
  intro text hlen
  unfold ds021Payload
  have h1 : (text.length + 3) / 4 % 256 = (text.length + 3) / 4 :=
    Nat.mod_eq_of_lt (by omega)
  rw [h1]
  exact List.take_of_length_le (by omega)

/-- Witness for C3 amended, discharging the length bound of the DS021
conjunct at the concrete text `ABC`. -/
theorem blockPad_multiple_amended_witness :
    (ds003aPayload [0x41, 0x42, 0x43]).length % 16 = 0 ∧
    ([0x41, 0x42, 0x43] : List Nat).length ≤ 1020 ∧
    ds021Payload [0x41, 0x42, 0x43] = [0x41, 0x42, 0x43] :=
  ⟨blockPad_multiple_amended.1 [0x41, 0x42, 0x43], by decide,
    blockPad_multiple_amended.2.2.2.1 [0x41, 0x42, 0x43] (by decide)⟩

/-- C4: `DS003a("TESTSTOP")` (8 chars) yields the body `zA`, the VDV hex
digit `1`, the text, and 8 padding spaces — 19 bytes — and the frame sent
through an open port is 21 bytes (body + 0x0D + checksum byte). -/
theorem ds003a_teststop_example :
    ds003aBody [0x54, 0x45, 0x53, 0x54, 0x53, 0x54, 0x4F, 0x50] =
      [0x7A, 0x41, 0x31] ++ [0x54, 0x45, 0x53, 0x54, 0x53, 0x54, 0x4F, 0x50] ++
        List.replicate 8 0x20 ∧
    (ds003aBody [0x54, 0x45, 0x53, 0x54, 0x53, 0x54, 0x4F, 0x50]).length = 19 ∧
    (sendTelegram { port := some true }
      (ds003aBody [0x54, 0x45, 0x53, 0x54, 0x53, 0x54, 0x4F, 0x50])).1.length = 21 := by
  decide

/-- C5: for every body made of well-formed symbols (7-bit plain bytes and
the seven umlauts ä ö ü ß Ä Ö Ü), the remap replaces every occurrence of
every umlaut — duplicates included — by the table byte ({ | } ~ [ backslash
]), and the frame sent through an open port computes its checksum over the
substituted bytes plus the terminator. -/
theorem umlaut_substitution_before_checksum (syms : List TSym)
    (h : ∀ s ∈ syms, symOk s = true) :
    umlautRemap (encodeSyms syms) = syms.map TSym.sub ∧
    ∀ st : PortState, st.port = some true →
      (sendTelegram st (encodeSyms syms)).1 =
        syms.map TSym.sub ++ [0x0D] ++ [checksum (syms.map TSym.sub ++ [0x0D])] := by
  have hmain : umlautRemap (encodeSyms syms) = syms.map TSym.sub :=
    umlautRemap_encodeSyms syms h
  refine ⟨hmain, ?_⟩
  intro st hst
  obtain ⟨p⟩ := st
  have hp : p = some true := hst
  subst hp
  simp [sendTelegram, hmain, List.append_assoc]

/-- Concrete symbol sequence for the C5 witness: ä twice (duplicate
occurrence), a plain byte, and the remaining six umlauts once each. -/
def c5Syms : List TSym :=
  [.uml 0xA4, .plain 0x61, .uml 0xA4, .uml 0xB6, .uml 0xBC, .uml 0x9F,
   .uml 0x84, .uml 0x96, .uml 0x9C]

/-- Witness for C5 at a body holding every umlaut, one of them twice. -/
theorem umlaut_substitution_before_checksum_witness :
    (∀ s ∈ c5Syms, symOk s = true) ∧
    umlautRemap (encodeSyms c5Syms) = c5Syms.map TSym.sub ∧
    (sendTelegram { port := some true } (encodeSyms c5Syms)).1 =
      c5Syms.map TSym.sub ++ [0x0D] ++ [checksum (c5Syms.map TSym.sub ++ [0x0D])] :=
  ⟨by decide, (umlaut_substitution_before_checksum c5Syms (by decide)).1,
    (umlaut_substitution_before_checksum c5Syms (by decide)).2 { port := some true } rfl⟩

/-- C6: on 0..15 the VDV hex encoding is total and returns exactly the
single character at index v of `0123456789:;<=>?` (which is the byte
0x30 + v), it is injective there, and indexing back into the alphabet
recovers v (round-trip by table lookup). -/
theorem toHexString_vdv_bijection :
    (∀ v, v < 16 → ToHexString v = [hexCharacters.getD v 0]) ∧
    (∀ v, v < 16 → hexCharacters.getD v 0 = 0x30 + v) ∧
    (∀ v, v < 16 → List.indexOf (hexCharacters.getD v 0) hexCharacters = v) ∧
    (∀ v, v < 16 → ∀ w, w < 16 → ToHexString v = ToHexString w → v = w) :=
  ⟨by decide, by decide, by decide, by decide⟩

/-- Witness for C6 at v = 10 (totality and table lookup) and at the pair
(3, 7) (injectivity). -/
theorem toHexString_vdv_bijection_witness :
    (10 < 16 ∧ ToHexString 10 = [hexCharacters.getD 10 0] ∧
      List.indexOf (hexCharacters.getD 10 0) hexCharacters = 10) ∧
    (3 < 16 ∧ 7 < 16 ∧ (ToHexString 3 = ToHexString 7 → 3 = 7)) :=
  ⟨⟨by decide, toHexString_vdv_bijection.1 10 (by decide),
      toHexString_vdv_bijection.2.2.1 10 (by decide)⟩,
    ⟨by decide, by decide, toHexString_vdv_bijection.2.2.2 3 (by decide) 7 (by decide)⟩⟩

/-- C7: `Begin` while the port is already Open returns false and leaves the
state untouched, and the existing transport keeps transmitting: a send after
the rejected `Begin` behaves like a send before it and writes a non-empty
frame. -/
theorem begin_while_open_rejected (st : PortState) (initOk : Bool)
    (h : st.port = some true) :
    Begin initOk st = (false, st) ∧
    ∀ t : List Nat, sendTelegram (Begin initOk st).2 t = sendTelegram st t ∧
      (sendTelegram st t).1 ≠ [] := by
  obtain ⟨p⟩ := st
  have hp : p = some true := h
  subst hp
  refine ⟨by simp [Begin], ?_⟩
  intro t
  refine ⟨by simp [Begin], ?_⟩
  simp [sendTelegram]

/-- Witness for C7 on an open port with a rejected second `Begin`. -/
theorem begin_while_open_rejected_witness :
    (({ port := some true } : PortState).port = some true) ∧
    Begin false { port := some true } = (false, { port := some true }) ∧
    (sendTelegram { port := some true } [0x6C]).1 ≠ [] :=
  ⟨rfl, (begin_while_open_rejected { port := some true } false rfl).1,
    ((begin_while_open_rejected { port := some true } false rfl).2 [0x6C]).2⟩

/-- C8: every send operation invoked while the port is Closed writes nothing
to the sink and leaves the state unchanged — `SendTelegram` itself and all
the formatters that forward to it. -/
theorem send_while_closed_noop (st : PortState) (h : st.port = none) :
    (∀ t, sendTelegram st t = ([], st)) ∧
    (∀ n, DS001 st n = ([], st)) ∧
    (∀ sign delay, DS010e st sign delay = ([], st)) ∧
    (∀ text, DS003a st text = ([], st)) ∧
    (∀ text, DS003c st text = ([], st)) ∧
    (∀ address text, DS021 st address text = ([], st)) ∧
    (∀ address stopId stopText changeText,
      DS021a st address stopId stopText changeText = ([], st)) ∧
    (∀ address line1 line2, GSP st address line1 line2 = ([], st)) := by
  obtain ⟨p⟩ := st
  have hp : p = none := h
  subst hp
  refine ⟨?_, ?_, ?_, ?_, ?_, ?_, ?_, ?_⟩ <;> intros <;>
    simp [sendTelegram, DS001, DS010e, DS003a, DS003c, DS021, DS021a, GSP]

/-- Witness for C8 on the Closed initial state with concrete arguments. -/
theorem send_while_closed_noop_witness :
    (({ port := none } : PortState).port = none) ∧
    sendTelegram { port := none } [0x41] = ([], { port := none }) ∧
    DS003a { port := none } [0x41] = ([], { port := none }) ∧
    GSP { port := none } 0 [0x41] [0x42] = ([], { port := none }) :=
  ⟨rfl, (send_while_closed_noop { port := none } rfl).1 [0x41],
    (send_while_closed_noop { port := none } rfl).2.2.2.1 [0x41],
    (send_while_closed_noop { port := none } rfl).2.2.2.2.2.2.2 0 [0x41] [0x42]⟩

set_option maxRecDepth 8192 in
/-- C9: the VDV hex encoding yields exactly one character for values 0..15
and exactly two characters — high nibble digit then low nibble digit — for
values 16..255; large block counts and addresses are therefore emitted as
two characters, not saturated to one digit. -/
theorem toHexString_length_split :
    (∀ v, v < 16 → (ToHexString v).length = 1) ∧
    (∀ v, v < 256 → 16 ≤ v →
      ToHexString v = [hexCharacters.getD (v / 16) 0, hexCharacters.getD (v % 16) 0] ∧
      (ToHexString v).length = 2) :=
  ⟨by decide, by decide⟩

/-- Witness for C9 at v = 5 (one character) and v = 171 (two characters). -/
theorem toHexString_length_split_witness :
    (5 < 16 ∧ (ToHexString 5).length = 1) ∧
    (171 < 256 ∧ 16 ≤ 171 ∧
      ToHexString 171 = [hexCharacters.getD (171 / 16) 0, hexCharacters.getD (171 % 16) 0]) :=
  ⟨⟨by decide, toHexString_length_split.1 5 (by decide)⟩,
    ⟨by decide, by decide, (toHexString_length_split.2 171 (by decide) (by decide)).1⟩⟩

/-- C10: GSP inserts the 0x0A separator only when line 2 is non-empty: with
an empty line 2, the pre-padding payload is line 1 immediately followed by
the 0x0A 0x0A end marker (the address plays no role in this string). -/
theorem gsp_empty_line2_no_separator (line1 : List Nat) :
    gspLines line1 [] = line1 ++ [0x0A, 0x0A] := by
  simp [gspLines]
